import Mathlib

/-!
# The Tailwind theme extension of `Semestre 2/Aula 08 - 23-09/tailwind.config.js`

The source file is one object literal assigned to `tailwind.config`.  It is
embedded as a value of `JsValue`: an object literal is the list of its
`key: value` entries in the order they are written, a string literal is a
`String`.  Keeping the entries as a list (and not as a finite map) keeps what
the literal says: a key written twice would appear twice.

The checks on the strings of the descriptor (percentage offsets, the
animation shorthand, the CSS values) are executable `Bool` functions over the
characters of the string.
-/

/-- A JavaScript value as it occurs in the configuration literal: a string
literal or an object literal (its entries in source order). -/
inductive JsValue where
  | str (s : String) : JsValue
  | obj (fields : List (String × JsValue)) : JsValue

namespace JsValue

/-- The entries of an object literal; a string has none. -/
def fields : JsValue → List (String × JsValue)
  | obj fs => fs
  | str _ => []

/-- The keys of an object literal, in source order, repetitions included. -/
def keys (v : JsValue) : List String :=
  v.fields.map Prod.fst

/-- Property read `v[k]`.  When a key is written twice in an object literal
JavaScript keeps the last value, hence the search from the end. -/
def get? (v : JsValue) (k : String) : Option JsValue :=
  (v.fields.reverse.find? (fun e => e.1 == k)).map Prod.snd

/-- Chained property read `v[k₁][k₂]...`. -/
def path (v : JsValue) : List String → Option JsValue
  | [] => some v
  | k :: ks => (v.get? k).bind (fun w => w.path ks)

/-- The string of a string literal. -/
def asString? : JsValue → Option String
  | str s => some s
  | obj _ => none

mutual
/-- The places where the key `k` is declared inside `v`: for each object
literal having an entry `k: ...`, the chain of keys leading to that object
from `v`. -/
def occurrences (k : String) : JsValue → List (List String)
  | str _ => []
  | obj fs => occurrencesIn k fs
/-- The occurrences of the key `k` in a list of entries. -/
def occurrencesIn (k : String) : List (String × JsValue) → List (List String)
  | [] => []
  | (k', v) :: rest =>
    (if k' = k then [[]] else []) ++ (v.occurrences k).map (fun p => k' :: p) ++
      occurrencesIn k rest
end

/-- An object literal reads as a map without loss: no key is written twice,
and every entry written is the one a property read returns. -/
def ReadsAsMap (v : JsValue) : Prop :=
  v.keys.Nodup ∧ ∀ e ∈ v.fields, v.get? e.1 = some e.2

end JsValue

namespace tailwind

/-- The literal assigned to `tailwind.config` (lines 1-19 of the source). -/
def config : JsValue :=
  .obj [
    ("theme", .obj [
      ("extend", .obj [
        ("keyframes", .obj [
          ("fade", .obj [
            ("0%", .obj [("opacity", .str "0")]),
            ("100%", .obj [("opacity", .str "1")])]),
          ("wiggle", .obj [
            ("0%", .obj [("transform", .str "rotate(-360deg)")])])]),
        ("animation", .obj [
          ("fade", .str "fade 1s ease-in-out infinite"),
          ("wiggle", .str "wiggle 1s ease-in-out infinite")])])])]

/-- The object `tailwind.config.theme`. -/
def theme : Option JsValue :=
  config.path ["theme"]

/-- The object `tailwind.config.theme.extend`. -/
def extend : Option JsValue :=
  config.path ["theme", "extend"]

/-- The object `tailwind.config.theme.extend.keyframes` (the empty object if
the path were absent). -/
def keyframes : JsValue :=
  (config.path ["theme", "extend", "keyframes"]).getD (.obj [])

/-- The object `tailwind.config.theme.extend.animation` (the empty object if
the path were absent). -/
def animation : JsValue :=
  (config.path ["theme", "extend", "animation"]).getD (.obj [])

end tailwind

/-! ## Reading the strings -/

/-- Split a character list at every occurrence of `sep`; two adjacent
separators, or a separator at either end, give an empty piece. -/
def splitOnChar (sep : Char) : List Char → List (List Char)
  | [] => [[]]
  | c :: cs =>
    if c = sep then [] :: splitOnChar sep cs
    else
      match splitOnChar sep cs with
      | [] => [[c]]
      | t :: ts => (c :: t) :: ts

/-- The space-separated tokens of a string. -/
def tokens (s : String) : List String :=
  (splitOnChar ' ' s.data).map String.mk

/-- The four components of an animation shorthand string. -/
structure AnimationShorthand where
  name : String
  duration : String
  timingFunction : String
  iterationCount : String
  deriving DecidableEq, Repr

/-- Read a shorthand string as exactly four non-empty tokens separated by
single spaces, in the order name, duration, timing-function,
iteration-count. -/
def parseShorthand (s : String) : Option AnimationShorthand :=
  match tokens s with
  | [n, d, t, i] =>
    if n ≠ "" ∧ d ≠ "" ∧ t ≠ "" ∧ i ≠ "" then some ⟨n, d, t, i⟩ else none
  | _ => none

/-- The animation name a shorthand string refers to: its first
space-separated token. -/
def shorthandName (s : String) : Option String :=
  (tokens s).head?

/-- An unsigned decimal numeral read as `mantissa / 10 ^ scale`. -/
structure Decimal where
  mantissa : Nat
  scale : Nat
  deriving DecidableEq, Repr

/-- The value of a string of decimal digits, continuing from `acc`. -/
def parseDigits (acc : Nat) : List Char → Option Nat
  | [] => some acc
  | c :: cs =>
    if c.isDigit then parseDigits (10 * acc + (c.toNat - '0'.toNat)) cs else none

/-- Read an unsigned decimal number: digits, or digits `.` digits with at
least one digit after the point (`12`, `0.5`, `.5`). -/
def parseDecimal (cs : List Char) : Option Decimal :=
  match splitOnChar '.' cs with
  | [ip] => if ip = [] then none else (parseDigits 0 ip).map (fun m => ⟨m, 0⟩)
  | [ip, fp] =>
    if fp = [] then none else (parseDigits 0 (ip ++ fp)).map (fun m => ⟨m, fp.length⟩)
  | _ => none

/-- The number `d` is at most the natural number `n`. -/
def Decimal.atMost (d : Decimal) (n : Nat) : Bool :=
  d.mantissa ≤ n * 10 ^ d.scale

/-- Remove `suffix` from the end of `cs`, if it ends with it. -/
def dropSuffix? (cs suffix : List Char) : Option (List Char) :=
  if suffix.isSuffixOf cs then some (cs.take (cs.length - suffix.length)) else none

/-- A CSS percentage literal between `0%` and `100%`: a decimal number `n`
with `0 ≤ n ≤ 100` immediately followed by `%`. -/
def isPercentOffset (s : String) : Bool :=
  match dropSuffix? s.data ['%'] with
  | some num =>
    match parseDecimal num with
    | some d => d.atMost 100
    | none => false
  | none => false

/-- A CSS time literal: a decimal number immediately followed by `s` or
`ms`. -/
def isTimeLiteral (s : String) : Bool :=
  let withUnit (u : List Char) : Bool :=
    match dropSuffix? s.data u with
    | some num => (parseDecimal num).isSome
    | none => false
  withUnit ['m', 's'] || withUnit ['s']

/-- The keywords CSS accepts as a timing function. -/
def timingKeywords : List String :=
  ["linear", "ease", "ease-in", "ease-out", "ease-in-out", "step-start", "step-end"]

/-- A timing function: one of the keywords or a `cubic-bezier(...)`
expression. -/
def isTimingFunction (s : String) : Bool :=
  timingKeywords.contains s ||
    ("cubic-bezier(".data.isPrefixOf s.data && [')'].isSuffixOf s.data)

/-- An iteration count: `infinite` or a non-negative integer. -/
def isIterationCount (s : String) : Bool :=
  s == "infinite" || (s.data ≠ [] && (parseDigits 0 s.data).isSome)

/-- An opacity value: a decimal number in `[0, 1]`. -/
def isOpacity (s : String) : Bool :=
  match parseDecimal s.data with
  | some d => d.atMost 1
  | none => false

/-- Where the scan of a transform list stands: between two function calls,
inside a function name, just after the opening bracket, inside the
arguments. -/
inductive TransformState where
  | between
  | name
  | opened
  | args
  deriving DecidableEq, Repr

/-- Scan a transform list, counting the function calls `name(arguments)`
completed so far; `none` when the string is not a sequence of such calls
separated by spaces.  A name starts with a letter and continues with
letters, digits or `-`; the arguments are non-empty and contain no
bracket. -/
def scanTransform : TransformState → Nat → List Char → Option Nat
  | .between, n, [] => some n
  | .name, _, [] => none
  | .opened, _, [] => none
  | .args, _, [] => none
  | .between, n, c :: cs =>
    if c = ' ' then scanTransform .between n cs
    else if c.isAlpha then scanTransform .name n cs
    else none
  | .name, n, c :: cs =>
    if c = '(' then scanTransform .opened n cs
    else if c.isAlphanum || c = '-' then scanTransform .name n cs
    else none
  | .opened, n, c :: cs =>
    if c = '(' || c = ')' then none else scanTransform .args n cs
  | .args, n, c :: cs =>
    if c = ')' then scanTransform .between (n + 1) cs
    else if c = '(' then none
    else scanTransform .args n cs

/-- A transform value: a non-empty list of function calls
`name(arguments)`. -/
def isTransformList (s : String) : Bool :=
  match scanTransform .between 0 s.data with
  | some n => 0 < n
  | none => false

/-- A CSS declaration `prop: value` of a keyframe step is well formed: the
property is `opacity` with a number in `[0, 1]`, or `transform` with a
transform function list, and the value is a string literal. -/
def isValidDeclaration (e : String × JsValue) : Bool :=
  match e.2 with
  | .str value =>
    if e.1 = "opacity" then isOpacity value
    else if e.1 = "transform" then isTransformList value
    else false
  | .obj _ => false

example : tokens "a  b " = ["a", "", "b", ""] := by decide
example : parseShorthand "fade  1s ease-in-out infinite" = none := by decide
example : isPercentOffset "100%" = true := by decide
example : isPercentOffset "100.5%" = false := by decide
example : isPercentOffset "12.5%" = true := by decide
example : isPercentOffset "50" = false := by decide
example : isTimeLiteral "1s" = true := by decide
example : isTimeLiteral "250ms" = true := by decide
example : isTimeLiteral "1m" = false := by decide
example : isTimeLiteral "s" = false := by decide
example : isTimingFunction "ease-in-out" = true := by decide
example : isTimingFunction "cubic-bezier(0.4,0,0.2,1)" = true := by decide
example : isTimingFunction "bouncy" = false := by decide
example : isIterationCount "3" = true := by decide
example : isIterationCount "-1" = false := by decide
example : isOpacity "0.5" = true := by decide
example : isOpacity "1.5" = false := by decide
example : isTransformList "rotate(-360deg)" = true := by decide
example : isTransformList "rotate(1deg) scale(2)" = true := by decide
example : isTransformList "" = false := by decide
example : isTransformList "rotate" = false := by decide
example : isTransformList "rotate()" = false := by decide

/-! ## The two mappings of the descriptor, as written -/

theorem tailwind.keyframes_fields :
    tailwind.keyframes.fields =
      [("fade", .obj [
          ("0%", .obj [("opacity", .str "0")]),
          ("100%", .obj [("opacity", .str "1")])]),
       ("wiggle", .obj [
          ("0%", .obj [("transform", .str "rotate(-360deg)")])])] :=
  rfl

theorem tailwind.animation_fields :
    tailwind.animation.fields =
      [("fade", .str "fade 1s ease-in-out infinite"),
       ("wiggle", .str "wiggle 1s ease-in-out infinite")] :=
  rfl

/-! ## Unique keys give lossless reads -/

theorem find?_key_of_nodup (l : List (String × JsValue)) (e : String × JsValue)
    (hn : (l.map Prod.fst).Nodup) (he : e ∈ l) :
    l.find? (fun x => x.1 == e.1) = some e := by
  induction l with
  | nil => cases he
  | cons a t ih =>
    rw [List.map_cons, List.nodup_cons] at hn
    rcases List.mem_cons.mp he with rfl | ht
    · simp
    · have hne : a.1 ≠ e.1 := by
        intro h
        exact hn.1 (h ▸ List.mem_map_of_mem Prod.fst ht)
      rw [List.find?_cons_of_neg _ (by simpa using hne)]
      exact ih hn.2 ht

theorem JsValue.readsAsMap_of_nodup (v : JsValue) (hn : v.keys.Nodup) : v.ReadsAsMap := by
  refine ⟨hn, fun e he => ?_⟩
  have hr : (v.fields.reverse.map Prod.fst).Nodup := by
    rw [List.map_reverse]
    exact List.nodup_reverse.mpr hn
  unfold JsValue.get?
  rw [find?_key_of_nodup v.fields.reverse e hr (List.mem_reverse.mpr he)]
  rfl

/-! ## The claims -/

/-- C1. Referential consistency: every entry of `theme.extend.animation` is a
shorthand string whose first space-separated token, the animation name, is a
key of `theme.extend.keyframes`. -/
theorem animation_names_are_keyframes_keys :
    ∀ e ∈ tailwind.animation.fields,
      ∃ s n, e.2 = JsValue.str s ∧ shorthandName s = some n ∧
        n ∈ tailwind.keyframes.keys := by
  intro e he
  rw [tailwind.animation_fields] at he
  simp only [List.mem_cons, List.mem_singleton, List.not_mem_nil, or_false] at he
  rcases he with rfl | rfl
  · exact ⟨"fade 1s ease-in-out infinite", "fade", rfl, by decide, by decide⟩
  · exact ⟨"wiggle 1s ease-in-out infinite", "wiggle", rfl, by decide, by decide⟩

theorem animation_names_are_keyframes_keys_witness :
    (("fade", JsValue.str "fade 1s ease-in-out infinite") : String × JsValue) ∈
        tailwind.animation.fields ∧
      ∃ s n, JsValue.str "fade 1s ease-in-out infinite" = JsValue.str s ∧
        shorthandName s = some n ∧ n ∈ tailwind.keyframes.keys :=
  ⟨List.Mem.head _, animation_names_are_keyframes_keys _ (List.Mem.head _)⟩

/-- C2. Every value of `theme.extend.animation` is a string of exactly four
single-space-separated tokens, name, duration, timing-function,
iteration-count: the duration is a time literal (a number followed by `s` or
`ms`), the timing function a CSS timing keyword or a `cubic-bezier(...)`
expression, the iteration count a non-negative integer or `infinite`. -/
theorem animation_values_are_shorthands :
    ∀ e ∈ tailwind.animation.fields,
      ∃ s a, e.2 = JsValue.str s ∧ parseShorthand s = some a ∧
        isTimeLiteral a.duration = true ∧ isTimingFunction a.timingFunction = true ∧
        isIterationCount a.iterationCount = true := by
  intro e he
  rw [tailwind.animation_fields] at he
  simp only [List.mem_cons, List.mem_singleton, List.not_mem_nil, or_false] at he
  rcases he with rfl | rfl
  · exact ⟨"fade 1s ease-in-out infinite", ⟨"fade", "1s", "ease-in-out", "infinite"⟩,
      rfl, by decide, by decide, by decide, by decide⟩
  · exact ⟨"wiggle 1s ease-in-out infinite", ⟨"wiggle", "1s", "ease-in-out", "infinite"⟩,
      rfl, by decide, by decide, by decide, by decide⟩

theorem animation_values_are_shorthands_witness :
    (("wiggle", JsValue.str "wiggle 1s ease-in-out infinite") : String × JsValue) ∈
        tailwind.animation.fields ∧
      ∃ s a, JsValue.str "wiggle 1s ease-in-out infinite" = JsValue.str s ∧
        parseShorthand s = some a ∧
        isTimeLiteral a.duration = true ∧ isTimingFunction a.timingFunction = true ∧
        isIterationCount a.iterationCount = true :=
  ⟨List.Mem.tail _ (List.Mem.head _),
    animation_values_are_shorthands _ (List.Mem.tail _ (List.Mem.head _))⟩

/-- C3. Literal scenario 1: `keyframes.fade` is exactly
`{'0%': {opacity: '0'}, '100%': {opacity: '1'}}`, `animation.fade` is
`'fade 1s ease-in-out infinite'`, and that shorthand reads as name `fade`,
duration `1s`, timing function `ease-in-out`, iteration count `infinite`. -/
theorem fade_scenario :
    tailwind.keyframes.get? "fade" =
        some (.obj [("0%", .obj [("opacity", .str "0")]),
                    ("100%", .obj [("opacity", .str "1")])]) ∧
      tailwind.animation.get? "fade" = some (.str "fade 1s ease-in-out infinite") ∧
      ((tailwind.animation.get? "fade").bind JsValue.asString?).bind parseShorthand =
        some ⟨"fade", "1s", "ease-in-out", "infinite"⟩ :=
  ⟨rfl, rfl, by decide⟩

/-- C4. Literal scenario 2: `keyframes.wiggle` is exactly
`{'0%': {transform: 'rotate(-360deg)'}}`, so its only offset is `0%` and a
read of `100%` finds nothing, and `animation.wiggle` is
`'wiggle 1s ease-in-out infinite'`. -/
theorem wiggle_scenario :
    tailwind.keyframes.get? "wiggle" =
        some (.obj [("0%", .obj [("transform", .str "rotate(-360deg)")])]) ∧
      (tailwind.keyframes.get? "wiggle").map JsValue.keys = some ["0%"] ∧
      tailwind.keyframes.path ["wiggle", "0%"] =
        some (.obj [("transform", .str "rotate(-360deg)")]) ∧
      tailwind.keyframes.path ["wiggle", "100%"] = none ∧
      tailwind.animation.get? "wiggle" = some (.str "wiggle 1s ease-in-out infinite") :=
  ⟨rfl, by decide, rfl, rfl, rfl⟩

/-- C5. In every keyframe sequence of `theme.extend.keyframes`, every offset
key is a CSS percentage literal: a decimal number between 0 and 100
immediately followed by `%`. -/
theorem keyframe_offsets_are_percentages :
    ∀ sequence ∈ tailwind.keyframes.fields, ∀ offset ∈ sequence.2.keys,
      isPercentOffset offset = true := by
  intro sequence hs
  rw [tailwind.keyframes_fields] at hs
  simp only [List.mem_cons, List.mem_singleton, List.not_mem_nil, or_false] at hs
  rcases hs with rfl | rfl <;> decide

theorem keyframe_offsets_are_percentages_witness :
    (("fade", JsValue.obj [("0%", .obj [("opacity", .str "0")]),
        ("100%", .obj [("opacity", .str "1")])]) : String × JsValue) ∈
        tailwind.keyframes.fields ∧
      "100%" ∈ ["0%", "100%"] ∧ isPercentOffset "100%" = true :=
  ⟨List.Mem.head _, by decide,
    keyframe_offsets_are_percentages _ (List.Mem.head _) "100%" (by decide)⟩

/-- C6. In every keyframe step of `theme.extend.keyframes`, every declaration
has a value that is well formed for its property: an `opacity` value is a
numeric string denoting a number in `[0, 1]`, a `transform` value is a
non-empty list of function calls `name(arguments)`. -/
theorem keyframe_values_are_valid :
    ∀ sequence ∈ tailwind.keyframes.fields, ∀ step ∈ sequence.2.fields,
      ∀ declaration ∈ step.2.fields, isValidDeclaration declaration = true := by
  intro sequence hs
  rw [tailwind.keyframes_fields] at hs
  simp only [List.mem_cons, List.mem_singleton, List.not_mem_nil, or_false] at hs
  rcases hs with rfl | rfl
  · intro step hstep
    simp only [JsValue.fields, List.mem_cons, List.mem_singleton, List.not_mem_nil,
      or_false] at hstep
    rcases hstep with rfl | rfl
    · intro declaration hd
      simp only [JsValue.fields, List.mem_singleton] at hd
      subst hd
      decide
    · intro declaration hd
      simp only [JsValue.fields, List.mem_singleton] at hd
      subst hd
      decide
  · intro step hstep
    simp only [JsValue.fields, List.mem_singleton] at hstep
    subst hstep
    intro declaration hd
    simp only [JsValue.fields, List.mem_singleton] at hd
    subst hd
    decide

theorem keyframe_values_are_valid_witness :
    (("wiggle", JsValue.obj [("0%", .obj [("transform", .str "rotate(-360deg)")])]) :
        String × JsValue) ∈ tailwind.keyframes.fields ∧
      isValidDeclaration ("transform", .str "rotate(-360deg)") = true :=
  ⟨List.Mem.tail _ (List.Mem.head _),
    keyframe_values_are_valid _ (List.Mem.tail _ (List.Mem.head _))
      ("0%", .obj [("transform", .str "rotate(-360deg)")]) (List.Mem.head _)
      ("transform", .str "rotate(-360deg)") (List.Mem.head _)⟩

/-- C7. Additive extend semantics: `extend` is the only key of the `theme`
object, and the keys `keyframes` and `animation` are each declared at exactly
one place in the whole configuration, inside `theme.extend`; none is declared
directly under `theme`. -/
theorem theme_declares_only_extend :
    tailwind.theme.map JsValue.keys = some ["extend"] ∧
      tailwind.extend.map JsValue.keys = some ["keyframes", "animation"] ∧
      tailwind.config.occurrences "keyframes" = [["theme", "extend"]] ∧
      tailwind.config.occurrences "animation" = [["theme", "extend"]] ∧
      tailwind.config.path ["theme", "keyframes"] = none ∧
      tailwind.config.path ["theme", "animation"] = none := by
  refine ⟨by decide, by decide, by decide, by decide, rfl, rfl⟩

/-- C8. Keys are unique within each mapping of the descriptor: the keys of
`keyframes`, the keys of `animation`, the offsets of each keyframe sequence
and the property names of each keyframe step have no duplicates, so each of
these object literals reads as a map that returns every entry written. -/
theorem descriptor_keys_are_unique :
    tailwind.keyframes.ReadsAsMap ∧ tailwind.animation.ReadsAsMap ∧
      ∀ sequence ∈ tailwind.keyframes.fields,
        sequence.2.ReadsAsMap ∧ ∀ step ∈ sequence.2.fields, step.2.ReadsAsMap := by
  refine ⟨JsValue.readsAsMap_of_nodup _ (by decide),
    JsValue.readsAsMap_of_nodup _ (by decide), ?_⟩
  intro sequence hs
  rw [tailwind.keyframes_fields] at hs
  simp only [List.mem_cons, List.mem_singleton, List.not_mem_nil, or_false] at hs
  rcases hs with rfl | rfl
  · refine ⟨JsValue.readsAsMap_of_nodup _ (by decide), ?_⟩
    intro step hstep
    simp only [JsValue.fields, List.mem_cons, List.mem_singleton, List.not_mem_nil,
      or_false] at hstep
    rcases hstep with rfl | rfl <;> exact JsValue.readsAsMap_of_nodup _ (by decide)
  · refine ⟨JsValue.readsAsMap_of_nodup _ (by decide), ?_⟩
    intro step hstep
    simp only [JsValue.fields, List.mem_singleton] at hstep
    subst hstep
    exact JsValue.readsAsMap_of_nodup _ (by decide)

/-- C10. `animation` and `keyframes` have the same keys, exactly `fade` and
`wiggle`, and the name token of every animation entry is the key of that
entry. -/
theorem animation_and_keyframes_keys_agree :
    tailwind.animation.keys = ["fade", "wiggle"] ∧
      tailwind.keyframes.keys = ["fade", "wiggle"] ∧
      ∀ e ∈ tailwind.animation.fields,
        ∃ s, e.2 = JsValue.str s ∧ shorthandName s = some e.1 := by
  refine ⟨by decide, by decide, ?_⟩
  intro e he
  rw [tailwind.animation_fields] at he
  simp only [List.mem_cons, List.mem_singleton, List.not_mem_nil, or_false] at he
  rcases he with rfl | rfl
  · exact ⟨"fade 1s ease-in-out infinite", rfl, by decide⟩
  · exact ⟨"wiggle 1s ease-in-out infinite", rfl, by decide⟩
